import Mathlib

/-!
Verification of the NL2SQL question-to-result pipeline of the repository
(warehouse/nl2sql_engine.py and warehouse/views.py).

The Python code is shallowly embedded: every pure string manipulation
(upper, strip, split, substring search, regex whole-word search) is
re-implemented as a structural recursion over List Char, and each stateful
collaborator (the text-generation oracle, the SQLite engine, wall-clock
time) is passed in explicitly as a function argument, indexed by call
number where the Python code performs a sequence of calls.
-/

set_option maxRecDepth 4000

namespace NL2SQL

/-- Whitespace characters removed by str.strip. -/
def isWs (c : Char) : Bool :=
  c == ' ' || c == '\t' || c == '\r' || c == '\n'

/-- Word characters for the regex word boundary used by the validator. -/
def isWordChar (c : Char) : Bool :=
  c.isAlphanum || c == '_'

/-- Python str.upper over a character list. -/
def upperL (s : List Char) : List Char := s.map Char.toUpper

/-- Python str.lower over a character list. -/
def lowerL (s : List Char) : List Char := s.map Char.toLower

/-- Drop trailing whitespace. -/
def dropTrailWs (s : List Char) : List Char := (s.reverse.dropWhile isWs).reverse

/-- Python str.strip over a character list. -/
def trimL (s : List Char) : List Char := dropTrailWs (s.dropWhile isWs)

/-- Python str.split(sep) for a one-character separator. -/
def splitOnChar (sep : Char) : List Char → List (List Char)
  | [] => [[]]
  | c :: rest =>
    if c == sep then [] :: splitOnChar sep rest
    else
      match splitOnChar sep rest with
      | [] => [[c]]
      | s :: ss => (c :: s) :: ss

/-- Python substring membership, needle in haystack. -/
def containsSubstr (needle : List Char) : List Char → Bool
  | [] => needle.isEmpty
  | c :: rest => needle.isPrefixOf (c :: rest) || containsSubstr needle rest

/-- Left word boundary: start of string or a preceding non-word character. -/
def boundaryOk : Option Char → Bool
  | none => true
  | some p => !isWordChar p

/-- Right word boundary: end of string or a following non-word character. -/
def tailOk : List Char → Bool
  | [] => true
  | c :: _ => !isWordChar c

/-- Scan for an occurrence of kw delimited by word boundaries, carrying the
previous character to decide the left boundary. -/
def wordOccursAux (kw : List Char) : Option Char → List Char → Bool
  | _, [] => false
  | prev, c :: rest =>
    (boundaryOk prev
        && (kw.isPrefixOf (c :: rest) && tailOk (List.drop kw.length (c :: rest))))
      || wordOccursAux kw (some c) rest

/-- re.search of a whole-word pattern for kw, as SQLValidator uses it. -/
def wordOccurs (kw s : List Char) : Bool := wordOccursAux kw none s

/-- A single-quote character, used to build SQL literals. -/
def squote : String := String.mk [Char.ofNat 39]

/-- Wrap a string in single quotes, as SQL string literals are written. -/
def qt (s : String) : String := squote ++ s ++ squote

/-- Validation verdict, the dict returned by SQLValidator.validate. -/
structure Verdict where
  valid : Bool
  error : Option String
  deriving DecidableEq

namespace SQLValidator

/-- BLOCKED_KEYWORDS of class SQLValidator, in source order. -/
def BLOCKED_KEYWORDS : List String :=
  ["INSERT", "UPDATE", "DELETE", "DROP", "ALTER", "CREATE",
   "TRUNCATE", "REPLACE", "MERGE", "EXEC", "EXECUTE",
   "GRANT", "REVOKE", "COMMIT", "ROLLBACK", "SAVEPOINT",
   "ATTACH", "DETACH", "PRAGMA"]

/-- SQLValidator.validate: empty check, SELECT/WITH check on the upper-cased
stripped text, whole-word denylist scan on the same text, and the count of
non-empty semicolon-separated statements on the raw text. -/
def validate (sql : String) : Verdict :=
  if trimL sql.data = [] then
    { valid := false, error := some ("Empty SQL query") }
  else
    let sqlUpper := trimL (upperL sql.data)
    if !("SELECT".data.isPrefixOf sqlUpper || "WITH".data.isPrefixOf sqlUpper) then
      { valid := false, error := some ("Only SELECT queries are allowed") }
    else
      match BLOCKED_KEYWORDS.find? (fun kw => wordOccurs kw.data sqlUpper) with
      | some kw => { valid := false, error := some ("Forbidden keyword: " ++ kw) }
      | none =>
        if 1 < (((splitOnChar ';' sql.data).map trimL).filter (fun s => !s.isEmpty)).length
        then { valid := false, error := some ("Multiple statements not allowed") }
        else { valid := true, error := none }

end SQLValidator

/-- The denylist as the specification spells it, lower-case, to be matched
case-insensitively. -/
def DENYLIST : List String :=
  ["insert", "update", "delete", "drop", "alter", "create",
   "truncate", "replace", "merge", "exec", "execute",
   "grant", "revoke", "commit", "rollback", "savepoint",
   "attach", "detach", "pragma"]

/-- Rejection conditions of claim C3, written from the specification text:
empty or whitespace-only; or, after trimming and uppercasing, not beginning
with SELECT or WITH; or a denylisted keyword occurring as a whole word
case-insensitively; or more than one non-empty statement when splitting
on the semicolon. -/
def rejectsSpec (sql : String) : Prop :=
  trimL sql.data = [] ∨
  ¬("SELECT".data.isPrefixOf (trimL (upperL sql.data)) = true ∨
    "WITH".data.isPrefixOf (trimL (upperL sql.data)) = true) ∨
  (∃ kw ∈ DENYLIST, wordOccurs (upperL kw.data) (upperL sql.data) = true) ∨
  1 < (((splitOnChar ';' sql.data).map trimL).filter (fun s => !s.isEmpty)).length

/-- The candidate of claim C10: a single SELECT statement whose only
semicolon sits inside a string literal. -/
def c10Sql : String := "SELECT " ++ qt (";") ++ " AS c FROM olist_orders"

/-- Execution outcome dict produced by SQLExecutor.execute. Row is the type
of one normalized result row; row values themselves are opaque here because
no claim inspects them. -/
structure ExecResult (Row : Type) where
  success : Bool
  columns : List String
  rows : List Row
  row_count : Nat
  execution_time_ms : Nat
  error : Option String
  deriving DecidableEq

/-- Reply of the storage engine to one executed statement: the cursor
description and fetched rows, or the text of the exception it raised. -/
inductive EngineReply (Row : Type) where
  | ok (columns : List String) (rows : List Row)
  | err (msg : String)
  deriving DecidableEq

/-- Connection lifecycle events of one SQLExecutor.execute call. -/
inductive ConnEv where
  | opened
  | closed
  deriving DecidableEq

/-- Python str.rstrip with a semicolon argument: remove trailing semicolon
characters only. -/
def rstripSemi (s : List Char) : List Char :=
  (s.reverse.dropWhile (fun c => c == ';')).reverse

namespace SQLExecutor

/-- The row-cap augmentation at the top of SQLExecutor.execute: when the
text LIMIT does not occur in the upper-cased query, trailing semicolons are
stripped and a LIMIT clause with the configured cap is appended; otherwise
the query is left unmodified. -/
def applyLimit (maxRows : Nat) (sql : String) : String :=
  if containsSubstr ("LIMIT".data) (upperL sql.data) then sql
  else String.mk (rstripSemi sql.data) ++ " LIMIT " ++ toString maxRows

/-- SQLExecutor.execute together with the trace of connection events the
call performs. The connection is opened, the engine runs the possibly
limit-augmented query, and close is reached only on the success path: the
except branch returns the failure dict without closing. elapsed stands for
the wall-clock duration the call measures. -/
def executeWithTrace {Row : Type} (maxRows : Nat) (engine : String → EngineReply Row)
    (elapsed : Nat) (sql : String) : ExecResult Row × List ConnEv :=
  match engine (applyLimit maxRows sql) with
  | .ok cols rows =>
    ({ success := true, columns := cols, rows := rows, row_count := rows.length,
       execution_time_ms := elapsed, error := none }, [ConnEv.opened, ConnEv.closed])
  | .err e =>
    ({ success := false, columns := [], rows := [], row_count := 0,
       execution_time_ms := 0, error := some e }, [ConnEv.opened])

/-- SQLExecutor.execute, result dict only. -/
def execute {Row : Type} (maxRows : Nat) (engine : String → EngineReply Row)
    (elapsed : Nat) (sql : String) : ExecResult Row :=
  (executeWithTrace maxRows engine elapsed sql).1

end SQLExecutor

/-- The two credential settings the pipeline consults. An empty string
models an unset value, matching Python truthiness. -/
structure DjangoSettings where
  ANTHROPIC_API_KEY : String
  OPENAI_API_KEY : String
  deriving DecidableEq

/-- The engine kind chosen by warehouse.views.query_api. -/
inductive EngineKind where
  | orchestrator
  | demo
  deriving DecidableEq

/-- Engine dispatch in query_api: NL2SQLEngine when settings.ANTHROPIC_API_KEY
is truthy, DemoNL2SQLEngine otherwise. -/
def queryApiEngine (s : DjangoSettings) : EngineKind :=
  if s.ANTHROPIC_API_KEY ≠ "" then .orchestrator else .demo

namespace ClaudeClient

/-- The credential check at the top of ClaudeClient.generate_sql: the api
key is read from settings.OPENAI_API_KEY and this error dict is returned
when that value is falsy. -/
def credentialError (s : DjangoSettings) : Option String :=
  if s.OPENAI_API_KEY = "" then
    some ("OPENAI_API_KEY not configured. Set it in environment variables.")
  else none

end ClaudeClient

/-- Reply of one ClaudeClient.generate_sql call as the orchestrator sees
it: a candidate query paired with its explanation, or an error message. -/
inductive GenResponse where
  | ok (sql explanation : String)
  | err (msg : String)
  deriving DecidableEq

/-- The result dict built by NL2SQLEngine.process_question. -/
structure QueryResult (Row : Type) where
  success : Bool
  question : String
  sql : String
  explanation : String
  columns : List String
  rows : List Row
  row_count : Nat
  execution_time_ms : Nat
  attempts : Nat
  error : Option String
  deriving DecidableEq

/-- Ghost counters for the calls one orchestration run makes to its two
collaborators. -/
structure RunStats where
  execCalls : Nat
  genCalls : Nat
  deriving DecidableEq

/-- Python f-string interpolation of an optional error value. -/
def optErrStr : Option String → String
  | some e => e
  | none => "None"

namespace NL2SQLEngine

/-- The retry loop of NL2SQLEngine.process_question. attempt is the Python
loop variable; fuel counts the remaining iterations of
for attempt in range(max_retries + 1) and starts at max_retries + 1. -/
def runLoop {Row : Type} (maxRetries : Nat) (gen : Nat → GenResponse)
    (ex : Nat → String → ExecResult Row) :
    Nat → Nat → String → String → QueryResult Row → RunStats →
      QueryResult Row × RunStats
  | _, 0, _, _, res, st => (res, st)
  | attempt, fuel + 1, sql, _expl, res, st =>
    let er := ex attempt sql
    let st1 : RunStats := { st with execCalls := st.execCalls + 1 }
    if er.success then
      ({ res with
          success := true, sql := sql, columns := er.columns,
          rows := er.rows, row_count := er.row_count,
          execution_time_ms := er.execution_time_ms, attempts := attempt + 1 }, st1)
    else if attempt < maxRetries then
      match gen (attempt + 1) with
      | .err e => ({ res with error := some e }, { st1 with genCalls := st1.genCalls + 1 })
      | .ok sql2 expl2 =>
        let st2 : RunStats := { st1 with genCalls := st1.genCalls + 1 }
        let res2 : QueryResult Row :=
          { res with sql := sql2, explanation := expl2, attempts := attempt + 2 }
        let v := SQLValidator.validate sql2
        if v.valid then
          runLoop maxRetries gen ex (attempt + 1) fuel sql2 expl2 res2 st2
        else
          ({ res2 with
             error := some ("Corrected SQL validation failed: " ++ optErrStr v.error) },
           st2)
    else
      ({ res with
         error := some ("Failed after " ++ toString (maxRetries + 1) ++ " attempts: "
           ++ optErrStr er.error) }, st1)

/-- NL2SQLEngine.process_question, with the oracle and the executor passed
in as call-indexed functions: gen n is the reply to the n-th generation
call, zero-based, and ex n sql the outcome of the n-th execution. The
second component counts the calls actually performed. -/
def processQuestion {Row : Type} (maxRetries : Nat) (gen : Nat → GenResponse)
    (ex : Nat → String → ExecResult Row) (question : String) :
    QueryResult Row × RunStats :=
  let res0 : QueryResult Row :=
    { success := false, question := question, sql := "", explanation := "",
      columns := [], rows := [], row_count := 0, execution_time_ms := 0,
      attempts := 0, error := none }
  match gen 0 with
  | .err e => ({ res0 with error := some e }, { execCalls := 0, genCalls := 1 })
  | .ok sql expl =>
    let res1 : QueryResult Row :=
      { res0 with sql := sql, explanation := expl, attempts := 1 }
    let v := SQLValidator.validate sql
    if v.valid then
      runLoop maxRetries gen ex 0 (maxRetries + 1) sql expl res1 ⟨0, 1⟩
    else
      ({ res1 with error := some ("Validation failed: " ++ optErrStr v.error) },
       { execCalls := 0, genCalls := 1 })

end NL2SQLEngine

/-- The result dict built by DemoNL2SQLEngine.process_question. -/
structure DemoResult (Row : Type) where
  success : Bool
  question : String
  sql : String
  explanation : String
  columns : List String
  rows : List Row
  row_count : Nat
  execution_time_ms : Nat
  attempts : Nat
  error : Option String
  demo_mode : Bool
  deriving DecidableEq

namespace DemoNL2SQLEngine

/-- DEMO_QUERIES of class DemoNL2SQLEngine as the ordered list of
(keyword string, canned sql, canned explanation), in source order. -/
def DEMO_QUERIES : List (String × String × String) :=
  [("revenue|sales|monthly",
    "SELECT strftime(" ++ qt ("%Y-%m") ++ ", o.order_purchase_timestamp) as month,\n"
      ++ "       COUNT(DISTINCT o.order_id) as total_orders,\n"
      ++ "       ROUND(SUM(p.payment_value), 2) as revenue,\n"
      ++ "       ROUND(AVG(p.payment_value), 2) as avg_order_value\n"
      ++ "FROM olist_orders o\n"
      ++ "JOIN olist_order_payments p ON o.order_id = p.order_id\n"
      ++ "WHERE o.order_status = " ++ qt ("delivered") ++ "\n"
      ++ "GROUP BY month\nORDER BY month\nLIMIT 24",
    "Monthly revenue trend for delivered orders (in BRL)."),
   ("category|categories|product type",
    "SELECT t.product_category_name_english as category,\n"
      ++ "       COUNT(DISTINCT oi.order_id) as total_orders,\n"
      ++ "       ROUND(SUM(oi.price), 2) as total_sales,\n"
      ++ "       ROUND(AVG(oi.price), 2) as avg_price\n"
      ++ "FROM olist_order_items oi\n"
      ++ "JOIN olist_products p ON oi.product_id = p.product_id\n"
      ++ "JOIN product_category_translation t ON p.product_category_name = t.product_category_name\n"
      ++ "JOIN olist_orders o ON oi.order_id = o.order_id\n"
      ++ "WHERE o.order_status = " ++ qt ("delivered") ++ "\n"
      ++ "GROUP BY t.product_category_name_english\nORDER BY total_sales DESC\nLIMIT 15",
    "Top 15 product categories by total sales value."),
   ("state|states|customer location|region",
    "SELECT c.customer_state as state,\n"
      ++ "       COUNT(DISTINCT c.customer_unique_id) as unique_customers,\n"
      ++ "       COUNT(DISTINCT o.order_id) as total_orders,\n"
      ++ "       ROUND(SUM(pay.payment_value), 2) as total_revenue\n"
      ++ "FROM olist_customers c\n"
      ++ "JOIN olist_orders o ON c.customer_id = o.customer_id\n"
      ++ "JOIN olist_order_payments pay ON o.order_id = pay.order_id\n"
      ++ "WHERE o.order_status = " ++ qt ("delivered") ++ "\n"
      ++ "GROUP BY c.customer_state\nORDER BY total_revenue DESC\nLIMIT 15",
    "Customer distribution and revenue by Brazilian state."),
   ("payment|payment method|credit card|boleto",
    "SELECT payment_type,\n"
      ++ "       COUNT(*) as usage_count,\n"
      ++ "       ROUND(AVG(payment_value), 2) as avg_value,\n"
      ++ "       ROUND(SUM(payment_value), 2) as total_value,\n"
      ++ "       ROUND(AVG(payment_installments), 1) as avg_installments,\n"
      ++ "       ROUND(100.0 * COUNT(*) / (SELECT COUNT(*) FROM olist_order_payments), 1) as pct\n"
      ++ "FROM olist_order_payments\nGROUP BY payment_type\nORDER BY total_value DESC",
    "Payment method distribution: credit card, boleto, voucher, debit card."),
   ("review|rating|score|satisfaction",
    "SELECT review_score,\n"
      ++ "       COUNT(*) as count,\n"
      ++ "       ROUND(100.0 * COUNT(*) / (SELECT COUNT(*) FROM olist_order_reviews), 1) as percentage\n"
      ++ "FROM olist_order_reviews\nGROUP BY review_score\nORDER BY review_score DESC",
    "Distribution of review scores (1-5 stars)."),
   ("seller|sellers|top seller",
    "SELECT s.seller_city, s.seller_state,\n"
      ++ "       COUNT(DISTINCT oi.order_id) as orders_fulfilled,\n"
      ++ "       ROUND(SUM(oi.price), 2) as total_sales,\n"
      ++ "       ROUND(AVG(oi.price), 2) as avg_item_price,\n"
      ++ "       COUNT(DISTINCT oi.product_id) as products_sold\n"
      ++ "FROM olist_sellers s\n"
      ++ "JOIN olist_order_items oi ON s.seller_id = oi.seller_id\n"
      ++ "JOIN olist_orders o ON oi.order_id = o.order_id\n"
      ++ "WHERE o.order_status = " ++ qt ("delivered") ++ "\n"
      ++ "GROUP BY s.seller_city, s.seller_state\nORDER BY total_sales DESC\nLIMIT 15",
    "Top 15 seller cities by total sales."),
   ("delivery|shipping|freight|delivery time",
    "SELECT c.customer_state as state,\n"
      ++ "       COUNT(*) as delivered_orders,\n"
      ++ "       ROUND(AVG(julianday(o.order_delivered_customer_date) - julianday(o.order_purchase_timestamp)), 1) as avg_delivery_days,\n"
      ++ "       ROUND(AVG(julianday(o.order_estimated_delivery_date) - julianday(o.order_delivered_customer_date)), 1) as avg_days_early,\n"
      ++ "       ROUND(AVG(oi.freight_value), 2) as avg_freight\n"
      ++ "FROM olist_orders o\n"
      ++ "JOIN olist_customers c ON o.customer_id = c.customer_id\n"
      ++ "JOIN olist_order_items oi ON o.order_id = oi.order_id\n"
      ++ "WHERE o.order_status = " ++ qt ("delivered") ++ "\n"
      ++ "  AND o.order_delivered_customer_date IS NOT NULL\n"
      ++ "GROUP BY c.customer_state\nORDER BY avg_delivery_days ASC\nLIMIT 15",
    "Average delivery time and freight cost by state."),
   ("order status|status|cancelled|canceled",
    "SELECT order_status,\n"
      ++ "       COUNT(*) as order_count,\n"
      ++ "       ROUND(100.0 * COUNT(*) / (SELECT COUNT(*) FROM olist_orders), 1) as percentage\n"
      ++ "FROM olist_orders\nGROUP BY order_status\nORDER BY order_count DESC",
    "Order status distribution across all orders."),
   ("customer|top customer|best customer",
    "SELECT c.customer_unique_id,\n"
      ++ "       c.customer_city, c.customer_state,\n"
      ++ "       COUNT(DISTINCT o.order_id) as total_orders,\n"
      ++ "       ROUND(SUM(pay.payment_value), 2) as total_spent\n"
      ++ "FROM olist_customers c\n"
      ++ "JOIN olist_orders o ON c.customer_id = o.customer_id\n"
      ++ "JOIN olist_order_payments pay ON o.order_id = pay.order_id\n"
      ++ "WHERE o.order_status = " ++ qt ("delivered") ++ "\n"
      ++ "GROUP BY c.customer_unique_id, c.customer_city, c.customer_state\n"
      ++ "ORDER BY total_spent DESC\nLIMIT 15",
    "Top 15 customers by total spending."),
   ("heavy|weight|big product|large",
    "SELECT t.product_category_name_english as category,\n"
      ++ "       ROUND(AVG(p.product_weight_g), 0) as avg_weight_g,\n"
      ++ "       ROUND(AVG(p.product_length_cm * p.product_height_cm * p.product_width_cm), 0) as avg_volume_cm3,\n"
      ++ "       COUNT(*) as product_count,\n"
      ++ "       ROUND(AVG(oi.freight_value), 2) as avg_freight\n"
      ++ "FROM olist_products p\n"
      ++ "JOIN product_category_translation t ON p.product_category_name = t.product_category_name\n"
      ++ "JOIN olist_order_items oi ON p.product_id = oi.product_id\n"
      ++ "WHERE p.product_weight_g IS NOT NULL\n"
      ++ "GROUP BY t.product_category_name_english\n"
      ++ "HAVING product_count >= 10\nORDER BY avg_weight_g DESC\nLIMIT 15",
    "Heaviest product categories by average weight and shipping cost.")]

/-- Number of keywords of one library entry, split on the bar, that occur
as substrings of the lowered question. -/
def countMatches (ql : List Char) (keywords : String) : Nat :=
  ((splitOnChar '|' keywords.data).filter (fun kw => containsSubstr kw ql)).length

/-- The scoring loop of DemoNL2SQLEngine.process_question: the running best
score starts at zero and an entry replaces the current match only with a
strictly greater score. -/
def bestMatch (ql : List Char) :
    List (String × String × String) → Option (String × String × String) → Nat →
      Option (String × String × String) × Nat
  | [], m, b => (m, b)
  | e :: rest, m, b =>
    if b < countMatches ql e.1 then bestMatch ql rest (some e) (countMatches ql e.1)
    else bestMatch ql rest m b

/-- DemoNL2SQLEngine.process_question: keyword scoring, fallback to the
first library entry when nothing matched, execution of the chosen canned
query through SQLExecutor, and the fixed demo_mode marker. -/
def processQuestion {Row : Type} (maxRows : Nat) (engine : String → EngineReply Row)
    (elapsed : Nat) (question : String) : DemoResult Row :=
  let ql := lowerL question.data
  let picked := bestMatch ql DEMO_QUERIES none 0
  let chosen :=
    match picked.1 with
    | none => DEMO_QUERIES.headD ("", "", "")
    | some e => if picked.2 = 0 then DEMO_QUERIES.headD ("", "", "") else e
  let er := SQLExecutor.execute maxRows engine elapsed chosen.2.1
  { success := er.success, question := question, sql := chosen.2.1,
    explanation := chosen.2.2, columns := er.columns, rows := er.rows,
    row_count := er.row_count, execution_time_ms := er.execution_time_ms,
    attempts := 1, error := er.error, demo_mode := true }

/-- Running maximum of entry scores over a list, starting from b. -/
def maxFold (ql : List Char) (l : List (String × String × String)) (b : Nat) : Nat :=
  l.foldl (fun acc e => max acc (countMatches ql e.1)) b

/-- Highest keyword score over the library. -/
def maxScore (ql : List Char) : Nat := maxFold ql DEMO_QUERIES 0

/-- The entry claim C9 says the fallback engine selects, from the spec
wording: the first-registered entry attaining the strictly highest keyword
count, or the first-registered entry when no entry scores above zero. -/
def specChoice (question : String) : String × String × String :=
  let ql := lowerL question.data
  if maxScore ql = 0 then DEMO_QUERIES.headD ("", "", "")
  else (DEMO_QUERIES.find? (fun e => countMatches ql e.1 == maxScore ql)).getD
    (DEMO_QUERIES.headD ("", "", ""))

end DemoNL2SQLEngine

end NL2SQL


namespace NL2SQL

/-! Concrete collaborator stubs used by the witnesses below. -/

/-- An oracle whose every reply is the same valid candidate. -/
def genSelect1 : Nat → GenResponse :=
  fun _ => GenResponse.ok ("SELECT 1") ("count rows")

/-- An oracle whose first reply is valid and whose correction reply is a
candidate the validator rejects. -/
def genInvalidOnRetry : Nat → GenResponse :=
  fun n =>
    if n = 0 then GenResponse.ok ("SELECT 1") ("count rows")
    else GenResponse.ok ("DROP TABLE olist_orders") ("oops")

/-- An oracle whose first reply is a candidate the validator rejects. -/
def genInvalidFirst : Nat → GenResponse :=
  fun _ => GenResponse.ok ("DROP TABLE olist_orders") ("oops")

/-- The failing execution outcome used by the executor stubs. -/
def failOutcome : ExecResult Unit :=
  { success := false, columns := [], rows := [], row_count := 0,
    execution_time_ms := 0, error := some ("no such table: t") }

/-- The successful execution outcome used by the executor stubs. -/
def okOutcome : ExecResult Unit :=
  { success := true, columns := ["month"], rows := [()], row_count := 1,
    execution_time_ms := 5, error := none }

/-- An executor that fails on every call. -/
def execAlwaysFail : Nat → String → ExecResult Unit := fun _ _ => failOutcome

/-- An executor that fails on its first call and succeeds afterwards. -/
def execFailThenOk : Nat → String → ExecResult Unit :=
  fun n _ => if n = 0 then failOutcome else okOutcome

/-- A storage engine that raises on every statement. -/
def engineNoTable : String → EngineReply Unit :=
  fun _ => EngineReply.err ("no such table: missing")

/-- A storage engine that raises an unknown-column error on every statement. -/
def engineNoColumn : String → EngineReply Unit :=
  fun _ => EngineReply.err ("no such column: foo")

/-- A storage engine that answers every statement with one fixed row set. -/
def engineOneRow : String → EngineReply Unit :=
  fun _ => EngineReply.ok ["c"] [()]

/-! Theorems. -/

/-- Claim C10: the candidate SELECT statement whose only semicolon sits
inside a string literal is rejected by the validator, with the
multiple-statement error, because the statement split cuts the raw text
at every semicolon without recognizing string literals. -/
theorem quotedSemicolonRejected :
    SQLValidator.validate c10Sql
      = { valid := false, error := some ("Multiple statements not allowed") } := by
  decide

/-- Claim C4: with a configured cap of 500, a query in which the text LIMIT
does not occur is executed as the query, trailing semicolons removed, with
LIMIT 500 appended, and the query already containing LIMIT 10 is executed
unmodified. -/
theorem rowCapAugmentation :
    (∀ sql : String,
      containsSubstr ("LIMIT".data) (upperL sql.data) = false →
      SQLExecutor.applyLimit 500 sql = String.mk (rstripSemi sql.data) ++ " LIMIT 500") ∧
    SQLExecutor.applyLimit 500 ("SELECT * FROM olist_orders LIMIT 10")
      = "SELECT * FROM olist_orders LIMIT 10" := by
  constructor
  · intro sql h
    unfold SQLExecutor.applyLimit
    rw [h]
    simp only [Bool.false_eq_true, if_false]
    rw [String.append_assoc]
    congr 1
  · decide

/-- Witness for C4 at the concrete query SELECT 1. -/
theorem rowCapAugmentationWitness :
    containsSubstr ("LIMIT".data) (upperL ("SELECT 1").data) = false ∧
    SQLExecutor.applyLimit 500 ("SELECT 1")
      = String.mk (rstripSemi ("SELECT 1").data) ++ " LIMIT 500" :=
  ⟨by decide, rowCapAugmentation.1 ("SELECT 1") (by decide)⟩

/-- Claim C5 at its failing configuration: with the Anthropic credential
set and OPENAI_API_KEY unset, query_api dispatches to the orchestrator,
yet the generation client reports its missing-credential error, because
generate_sql reads settings.OPENAI_API_KEY instead of the credential the
dispatch checks. -/
theorem dispatchCredentialMismatch :
    queryApiEngine { ANTHROPIC_API_KEY := "sk-ant-test", OPENAI_API_KEY := "" }
        = EngineKind.orchestrator ∧
    ClaudeClient.credentialError { ANTHROPIC_API_KEY := "sk-ant-test", OPENAI_API_KEY := "" }
        = some ("OPENAI_API_KEY not configured. Set it in environment variables.") := by
  constructor
  · decide
  · decide

/-- Claim C6 at its failing input: when the engine raises during execution,
the call returns with the connection opened but never closed, because
conn.close() sits on the success path only; the success path does close. -/
theorem connectionLeakOnError :
    (SQLExecutor.executeWithTrace 500 engineNoTable 0 ("SELECT * FROM missing")).2
        = [ConnEv.opened] ∧
    ConnEv.closed ∉
      (SQLExecutor.executeWithTrace 500 engineNoTable 0 ("SELECT * FROM missing")).2 ∧
    (SQLExecutor.executeWithTrace 500 engineOneRow 0 ("SELECT 1")).2
        = [ConnEv.opened, ConnEv.closed] := by
  refine ⟨rfl, ?_, rfl⟩
  decide

/-- Claim C8: execute converts every engine failure into a success=false
outcome carrying the engine error text, never raising; the embedding is a
total function, and on an engine error it returns exactly the failure
dict the except branch builds. -/
theorem executeNeverRaises {Row : Type} (maxRows elapsed : Nat)
    (engine : String → EngineReply Row) (sql e : String)
    (h : engine (SQLExecutor.applyLimit maxRows sql) = EngineReply.err e) :
    SQLExecutor.execute maxRows engine elapsed sql
      = { success := false, columns := [], rows := [], row_count := 0,
          execution_time_ms := 0, error := some e } := by
  unfold SQLExecutor.execute SQLExecutor.executeWithTrace
  rw [h]

/-- Witness for C8 at a concrete unknown-column failure. -/
theorem executeNeverRaisesWitness :
    SQLExecutor.execute 500 engineNoColumn 0 ("SELECT foo FROM olist_orders")
      = { success := false, columns := [], rows := [], row_count := 0,
          execution_time_ms := 0, error := some ("no such column: foo") } :=
  executeNeverRaises 500 0 engineNoColumn ("SELECT foo FROM olist_orders")
    ("no such column: foo") rfl

/-- Claim C1: with retry bound 2, a first generation that passes
validation, corrections that also pass validation, and an executor that
fails on every attempt, the orchestration performs exactly three
executions (execCalls = 3) and the final record reports attempts = 3,
success = false, an error carrying the last execution error, and the last
attempted query text and explanation. -/
theorem retryExhaustionRecord {Row : Type} (gen : Nat → GenResponse)
    (ex : Nat → String → ExecResult Row) (question s0 e0 s1 e1 s2 e2 lastErr : String)
    (h0 : gen 0 = GenResponse.ok s0 e0) (hv0 : (SQLValidator.validate s0).valid = true)
    (h1 : gen 1 = GenResponse.ok s1 e1) (hv1 : (SQLValidator.validate s1).valid = true)
    (h2 : gen 2 = GenResponse.ok s2 e2) (hv2 : (SQLValidator.validate s2).valid = true)
    (hfail : ∀ n sql, (ex n sql).success = false)
    (herr : (ex 2 s2).error = some lastErr) :
    NL2SQLEngine.processQuestion 2 gen ex question
      = ({ success := false, question := question, sql := s2, explanation := e2,
           columns := [], rows := [], row_count := 0, execution_time_ms := 0,
           attempts := 3,
           error := some ("Failed after 3 attempts: " ++ lastErr) },
         { execCalls := 3, genCalls := 3 }) := by
  unfold NL2SQLEngine.processQuestion
  rw [h0]
  simp only [hv0, if_true, NL2SQLEngine.runLoop, hfail, h1, h2, hv1, hv2, herr, optErrStr,
    Bool.false_eq_true, if_false, Nat.reduceAdd, Nat.reduceLT, if_true]
  rfl

/-- Witness for C1: the concrete always-failing executor with a fixed
valid oracle reply. -/
theorem retryExhaustionRecordWitness :
    NL2SQLEngine.processQuestion 2 genSelect1 execAlwaysFail ("how many rows")
      = ({ success := false, question := "how many rows", sql := "SELECT 1",
           explanation := "count rows", columns := [], rows := [], row_count := 0,
           execution_time_ms := 0, attempts := 3,
           error := some ("Failed after 3 attempts: " ++ "no such table: t") },
         { execCalls := 3, genCalls := 3 }) :=
  retryExhaustionRecord genSelect1 execAlwaysFail ("how many rows")
    ("SELECT 1") ("count rows") ("SELECT 1") ("count rows") ("SELECT 1") ("count rows")
    ("no such table: t") rfl (by decide) rfl (by decide) rfl (by decide)
    (fun _ _ => rfl) rfl

/-- Loop invariant behind claim C2: once the loop is entered with counters
matching the attempt number, a successful result can only arise from an
immediately returning execution, so the final counters both equal the
reported attempt count. -/
theorem runLoop_success_calls {Row : Type} (mR : Nat) (gen : Nat → GenResponse)
    (ex : Nat → String → ExecResult Row) :
    ∀ (fuel attempt : Nat) (sql expl : String) (res : QueryResult Row) (st : RunStats),
      res.success = false → st.execCalls = attempt → st.genCalls = attempt + 1 →
      (NL2SQLEngine.runLoop mR gen ex attempt fuel sql expl res st).1.success = true →
      (NL2SQLEngine.runLoop mR gen ex attempt fuel sql expl res st).2.execCalls
          = (NL2SQLEngine.runLoop mR gen ex attempt fuel sql expl res st).1.attempts ∧
      (NL2SQLEngine.runLoop mR gen ex attempt fuel sql expl res st).2.genCalls
          = (NL2SQLEngine.runLoop mR gen ex attempt fuel sql expl res st).1.attempts := by
  intro fuel
  induction fuel with
  | zero =>
    intro attempt sql expl res st hsucc _ _ hs
    simp only [NL2SQLEngine.runLoop] at hs
    rw [hsucc] at hs
    exact absurd hs (by simp)
  | succ fuel ih =>
    intro attempt sql expl res st hsucc hec hgc hs
    simp only [NL2SQLEngine.runLoop] at hs ⊢
    by_cases hex : (ex attempt sql).success = true
    · simp only [hex, if_true] at hs ⊢
      exact ⟨by simp [hec], by simp [hgc]⟩
    · have hex' : (ex attempt sql).success = false := by
        simpa using hex
      simp only [hex', Bool.false_eq_true, if_false] at hs ⊢
      by_cases hlt : attempt < mR
      · simp only [hlt, if_true] at hs ⊢
        cases hg : gen (attempt + 1) with
        | err e =>
          rw [hg] at hs
          simp [hsucc] at hs
        | ok s2 e2 =>
          rw [hg] at hs
          by_cases hv : (SQLValidator.validate s2).valid = true
          · simp only [hv, if_true] at hs ⊢
            exact ih (attempt + 1) s2 e2 _ _ (by simp [hsucc]) (by simp [hec]) (by simp [hgc]) hs
          · have hv' : (SQLValidator.validate s2).valid = false := by
              simpa using hv
            simp only [hv', Bool.false_eq_true, if_false] at hs
            simp [hsucc] at hs
      · simp only [hlt, if_false] at hs
        rw [hsucc] at hs
        exact absurd hs (by simp)

/-- Claim C2: whenever an execution succeeds the loop stops at once, so on
any successful run both call counters equal the reported attempt count;
and in the concrete fails-once-then-succeeds scenario with retry bound 2
the record reports attempts = 2, success = true, and carries the full
execution outcome of the succeeding call. -/
theorem successStopsLoop :
    (∀ (Row : Type) (mR : Nat) (gen : Nat → GenResponse)
        (ex : Nat → String → ExecResult Row) (q : String),
      (NL2SQLEngine.processQuestion mR gen ex q).1.success = true →
      (NL2SQLEngine.processQuestion mR gen ex q).2.execCalls
          = (NL2SQLEngine.processQuestion mR gen ex q).1.attempts ∧
      (NL2SQLEngine.processQuestion mR gen ex q).2.genCalls
          = (NL2SQLEngine.processQuestion mR gen ex q).1.attempts) ∧
    (∀ (Row : Type) (gen : Nat → GenResponse) (ex : Nat → String → ExecResult Row)
        (q s0 e0 s1 e1 : String),
      gen 0 = GenResponse.ok s0 e0 → (SQLValidator.validate s0).valid = true →
      gen 1 = GenResponse.ok s1 e1 → (SQLValidator.validate s1).valid = true →
      (ex 0 s0).success = false → (ex 1 s1).success = true →
      NL2SQLEngine.processQuestion 2 gen ex q
        = ({ success := true, question := q, sql := s1, explanation := e1,
             columns := (ex 1 s1).columns, rows := (ex 1 s1).rows,
             row_count := (ex 1 s1).row_count,
             execution_time_ms := (ex 1 s1).execution_time_ms,
             attempts := 2, error := none },
           { execCalls := 2, genCalls := 2 })) := by
  constructor
  · intro Row mR gen ex q
    unfold NL2SQLEngine.processQuestion
    cases hg0 : gen 0 with
    | err e =>
      intro hs
      simp only [] at hs
      exact absurd hs (by simp)
    | ok s0 e0 =>
      by_cases hv : (SQLValidator.validate s0).valid = true
      · simp only [hv, if_true]
        exact runLoop_success_calls mR gen ex (mR + 1) 0 s0 e0 _ _ rfl rfl rfl
      · have hv' : (SQLValidator.validate s0).valid = false := by
          simpa using hv
        simp only [hv', Bool.false_eq_true, if_false]
        intro hs
        exact absurd hs (by simp)
  · intro Row gen ex q s0 e0 s1 e1 h0 hv0 h1 hv1 hf0 hs1
    unfold NL2SQLEngine.processQuestion
    rw [h0]
    simp only [hv0, if_true, NL2SQLEngine.runLoop, hf0, h1, hv1,
      Bool.false_eq_true, if_false, Nat.reduceAdd, Nat.reduceLT, if_true, hs1]

/-- Witness for C2: the concrete fail-once-then-succeed executor. -/
theorem successStopsLoopWitness :
    NL2SQLEngine.processQuestion 2 genSelect1 execFailThenOk ("monthly revenue")
      = ({ success := true, question := "monthly revenue", sql := "SELECT 1",
           explanation := "count rows", columns := ["month"], rows := [()],
           row_count := 1, execution_time_ms := 5, attempts := 2, error := none },
         { execCalls := 2, genCalls := 2 }) :=
  successStopsLoop.2 Unit genSelect1 execFailThenOk ("monthly revenue")
    ("SELECT 1") ("count rows") ("SELECT 1") ("count rows")
    rfl (by decide) rfl (by decide) rfl rfl

/-- Claim C7: a validator rejection is terminal. First conjunct: when the
first candidate is rejected, the run returns at once with success=false,
the validation error, the rejected candidate text and explanation, no
execution, and no further oracle call. Second conjunct: inside the loop,
at any round, when the corrected candidate is rejected the loop returns at
once, performing no further execution or oracle call beyond the failing
execution and the one correction that produced the rejected candidate. -/
theorem validatorRejectionTerminal :
    (∀ (Row : Type) (mR : Nat) (gen : Nat → GenResponse)
        (ex : Nat → String → ExecResult Row) (q s0 e0 : String),
      gen 0 = GenResponse.ok s0 e0 → (SQLValidator.validate s0).valid = false →
      NL2SQLEngine.processQuestion mR gen ex q
        = ({ success := false, question := q, sql := s0, explanation := e0,
             columns := [], rows := [], row_count := 0, execution_time_ms := 0,
             attempts := 1,
             error := some ("Validation failed: "
               ++ optErrStr (SQLValidator.validate s0).error) },
           { execCalls := 0, genCalls := 1 })) ∧
    (∀ (Row : Type) (mR : Nat) (gen : Nat → GenResponse)
        (ex : Nat → String → ExecResult Row) (attempt fuel : Nat)
        (sql expl : String) (res : QueryResult Row) (st : RunStats) (s2 e2 : String),
      (ex attempt sql).success = false → attempt < mR →
      gen (attempt + 1) = GenResponse.ok s2 e2 →
      (SQLValidator.validate s2).valid = false →
      res.success = false →
      NL2SQLEngine.runLoop mR gen ex attempt (fuel + 1) sql expl res st
        = ({ res with
              sql := s2, explanation := e2, attempts := attempt + 2,
              error := some ("Corrected SQL validation failed: "
                ++ optErrStr (SQLValidator.validate s2).error) },
           { execCalls := st.execCalls + 1, genCalls := st.genCalls + 1 }) ∧
      (NL2SQLEngine.runLoop mR gen ex attempt (fuel + 1) sql expl res st).1.success
        = false) := by
  constructor
  · intro Row mR gen ex q s0 e0 h0 hv0
    unfold NL2SQLEngine.processQuestion
    rw [h0]
    simp only [hv0, Bool.false_eq_true, if_false]
  · intro Row mR gen ex attempt fuel sql expl res st s2 e2 hf hlt hg hv hres
    have key : NL2SQLEngine.runLoop mR gen ex attempt (fuel + 1) sql expl res st
        = ({ res with
              sql := s2, explanation := e2, attempts := attempt + 2,
              error := some ("Corrected SQL validation failed: "
                ++ optErrStr (SQLValidator.validate s2).error) },
           { execCalls := st.execCalls + 1, genCalls := st.genCalls + 1 }) := by
      simp only [NL2SQLEngine.runLoop, hf, Bool.false_eq_true, if_false, hlt, if_true, hg,
        hv]
    exact ⟨key, by rw [key]; exact hres⟩

/-- Witness for C7: a rejected first candidate and, in the loop, a
rejected corrected candidate. -/
theorem validatorRejectionTerminalWitness :
    NL2SQLEngine.processQuestion 2 genInvalidFirst execAlwaysFail ("drop it")
      = ({ success := false, question := "drop it", sql := "DROP TABLE olist_orders",
           explanation := "oops", columns := [], rows := [], row_count := 0,
           execution_time_ms := 0, attempts := 1,
           error := some ("Validation failed: "
             ++ optErrStr (SQLValidator.validate ("DROP TABLE olist_orders")).error) },
         { execCalls := 0, genCalls := 1 }) ∧
    NL2SQLEngine.runLoop 2 genInvalidOnRetry execAlwaysFail 0 3 ("SELECT 1") ("count rows")
        { success := false, question := "q", sql := "SELECT 1",
          explanation := "count rows", columns := [], rows := [], row_count := 0,
          execution_time_ms := 0, attempts := 1, error := none }
        { execCalls := 0, genCalls := 1 }
      = ({ success := false, question := "q", sql := "DROP TABLE olist_orders",
           explanation := "oops", columns := [], rows := [], row_count := 0,
           execution_time_ms := 0, attempts := 2,
           error := some ("Corrected SQL validation failed: "
             ++ optErrStr (SQLValidator.validate ("DROP TABLE olist_orders")).error) },
         { execCalls := 1, genCalls := 2 }) :=
  ⟨validatorRejectionTerminal.1 Unit 2 genInvalidFirst execAlwaysFail ("drop it")
      ("DROP TABLE olist_orders") ("oops") rfl (by decide),
   (validatorRejectionTerminal.2 Unit 2 genInvalidOnRetry execAlwaysFail 0 2
      ("SELECT 1") ("count rows") _ _ ("DROP TABLE olist_orders") ("oops")
      rfl (by decide) rfl (by decide) rfl).1⟩

/-! Lemmas for claim C3: the whole-word scan is unaffected by stripping
surrounding whitespace, and the upper-cased code denylist coincides with
the lower-cased spec denylist matched case-insensitively. -/

/-- Every blocked keyword is non-empty and made of word characters. -/
theorem blocked_word_chars :
    ∀ kw ∈ SQLValidator.BLOCKED_KEYWORDS,
      kw.data ≠ [] ∧ ∀ c ∈ kw.data, isWordChar c = true := by
  decide

/-- Upper-casing the spec denylist yields exactly the code denylist. -/
theorem denylist_upper :
    DENYLIST.map (fun kw => upperL kw.data)
      = SQLValidator.BLOCKED_KEYWORDS.map String.data := by
  decide

/-- A whitespace character is not a word character. -/
theorem ws_not_word {c : Char} (h : isWs c = true) : isWordChar c = false := by
  simp only [isWs, Bool.or_eq_true, beq_iff_eq] at h
  rcases h with ((h | h) | h) | h <;> subst h <;> decide

/-- A word character never equals a whitespace character. -/
theorem word_beq_ws_false {k c : Char} (hk : isWordChar k = true) (hc : isWs c = true) :
    (k == c) = false := by
  cases h : k == c
  · rfl
  · have hkc : k = c := by simpa using h
    subst hkc
    rw [ws_not_word hc] at hk
    simp at hk

/-- A keyword starting with a word character is never a prefix of a text
starting with whitespace. -/
theorem cons_prefix_ws_false {k : Char} {kt t : List Char} {c : Char}
    (hk : isWordChar k = true) (hc : isWs c = true) :
    (k :: kt).isPrefixOf (c :: t) = false := by
  simp [List.isPrefixOf, word_beq_ws_false hk hc]

/-- The scan depends on the previous character only through the boundary
test. -/
theorem wordOccursAux_prev {kw : List Char} {p q : Option Char}
    (h : boundaryOk p = boundaryOk q) :
    ∀ s, wordOccursAux kw p s = wordOccursAux kw q s := by
  intro s
  cases s with
  | nil => rfl
  | cons c rest => simp [wordOccursAux, h]

/-- No whole-word occurrence exists inside pure whitespace. -/
theorem wordOccursAux_ws_only {k : Char} {kt : List Char}
    (hk : isWordChar k = true) :
    ∀ (t : List Char), (∀ c ∈ t, isWs c = true) →
      ∀ p, wordOccursAux (k :: kt) p t = false := by
  intro t
  induction t with
  | nil => intro _ p; rfl
  | cons c rest ih =>
    intro h p
    have hc : isWs c = true := h c (by simp)
    have hrest : ∀ x ∈ rest, isWs x = true := fun x hx => h x (by simp [hx])
    simp [wordOccursAux, cons_prefix_ws_false hk hc, ih hrest]

/-- Appending trailing whitespace changes neither the prefix test nor the
right-boundary test of the scan head. -/
theorem prefix_tail_append_ws {t : List Char} (ht : ∀ c ∈ t, isWs c = true) :
    ∀ (kw l : List Char), (∀ c ∈ kw, isWordChar c = true) →
      (kw.isPrefixOf (l ++ t) && tailOk (List.drop kw.length (l ++ t)))
        = (kw.isPrefixOf l && tailOk (List.drop kw.length l)) := by
  intro kw
  induction kw with
  | nil =>
    intro l _
    cases l with
    | nil =>
      cases ht2 : t with
      | nil => rfl
      | cons c r =>
        have hc : isWs c = true := ht c (by rw [ht2]; simp)
        simp [List.isPrefixOf, tailOk, ws_not_word hc]
    | cons c r => simp [List.isPrefixOf, tailOk]
  | cons k kt ih =>
    intro l hw
    have hk : isWordChar k = true := hw k (by simp)
    have hkt : ∀ c ∈ kt, isWordChar c = true := fun c hc => hw c (by simp [hc])
    cases l with
    | nil =>
      cases ht2 : t with
      | nil => rfl
      | cons c r =>
        have hc : isWs c = true := ht c (by rw [ht2]; simp)
        simp [List.isPrefixOf, word_beq_ws_false hk hc]
    | cons c r =>
      simp only [List.cons_append, List.isPrefixOf, List.length_cons,
        List.drop_succ_cons, List.append_eq]
      rw [Bool.and_assoc, Bool.and_assoc, ih r hkt]

/-- Appending trailing whitespace does not change the whole-word scan. -/
theorem wordOccursAux_append_ws {k : Char} {kt t : List Char}
    (hw : ∀ c ∈ (k :: kt), isWordChar c = true)
    (ht : ∀ c ∈ t, isWs c = true) :
    ∀ (l : List Char) (p : Option Char),
      wordOccursAux (k :: kt) p (l ++ t) = wordOccursAux (k :: kt) p l := by
  have hk : isWordChar k = true := hw k (by simp)
  intro l
  induction l with
  | nil =>
    intro p
    rw [List.nil_append, wordOccursAux_ws_only hk t ht p]
    rfl
  | cons c r ih =>
    intro p
    simp only [List.cons_append, wordOccursAux, List.append_eq]
    rw [ih (some c)]
    have hpt := prefix_tail_append_ws ht (k :: kt) (c :: r) hw
    simp only [List.cons_append, List.append_eq] at hpt
    rw [hpt]

/-- Removing trailing whitespace does not change the whole-word scan. -/
theorem wordOccurs_dropTrail {kw : List Char} (hne : kw ≠ [])
    (hw : ∀ c ∈ kw, isWordChar c = true) (l : List Char) :
    wordOccurs kw (dropTrailWs l) = wordOccurs kw l := by
  obtain ⟨k, kt, rfl⟩ : ∃ k kt, kw = k :: kt := by
    cases kw with
    | nil => exact absurd rfl hne
    | cons k kt => exact ⟨k, kt, rfl⟩
  have hdecomp : l = dropTrailWs l ++ (l.reverse.takeWhile isWs).reverse := by
    conv_lhs => rw [← List.reverse_reverse l,
      ← List.takeWhile_append_dropWhile isWs l.reverse]
    rw [List.reverse_append]
    rfl
  have hws : ∀ c ∈ (l.reverse.takeWhile isWs).reverse, isWs c = true := by
    intro c hc
    rw [List.mem_reverse] at hc
    exact List.mem_takeWhile_imp hc
  conv_rhs => rw [hdecomp]
  exact (wordOccursAux_append_ws hw hws (dropTrailWs l) none).symm

/-- Removing leading whitespace does not change the whole-word scan. -/
theorem wordOccurs_dropLead {kw : List Char} (hne : kw ≠ [])
    (hw : ∀ c ∈ kw, isWordChar c = true) (l : List Char) :
    wordOccurs kw (l.dropWhile isWs) = wordOccurs kw l := by
  obtain ⟨k, kt, rfl⟩ : ∃ k kt, kw = k :: kt := by
    cases kw with
    | nil => exact absurd rfl hne
    | cons k kt => exact ⟨k, kt, rfl⟩
  have hk : isWordChar k = true := hw k (by simp)
  induction l with
  | nil => rfl
  | cons c r ih =>
    by_cases hc : isWs c = true
    · rw [List.dropWhile_cons]
      simp only [hc, if_true]
      rw [ih]
      have h1 : (k :: kt).isPrefixOf (c :: r) = false := cons_prefix_ws_false hk hc
      have h2 : boundaryOk (some c) = boundaryOk none := by
        simp [boundaryOk, ws_not_word hc]
      simp [wordOccurs, wordOccursAux, h1, wordOccursAux_prev h2 r]
    · have hc2 : isWs c = false := by simpa using hc
      rw [List.dropWhile_cons]
      simp [hc2]

/-- Stripping does not change the whole-word scan. -/
theorem wordOccurs_trim {kw : List Char} (hne : kw ≠ [])
    (hw : ∀ c ∈ kw, isWordChar c = true) (l : List Char) :
    wordOccurs kw (trimL l) = wordOccurs kw l := by
  unfold trimL
  rw [wordOccurs_dropTrail hne hw, wordOccurs_dropLead hne hw]

/-- The code denylist scan over the stripped upper-cased candidate agrees
with the spec denylist matched case-insensitively over the raw candidate. -/
theorem blocked_iff_denylist (sql : String) :
    (∃ kw ∈ SQLValidator.BLOCKED_KEYWORDS,
        wordOccurs kw.data (trimL (upperL sql.data)) = true) ↔
    (∃ kw ∈ DENYLIST, wordOccurs (upperL kw.data) (upperL sql.data) = true) := by
  constructor
  · rintro ⟨K, hK, ho⟩
    have hfacts := blocked_word_chars K hK
    rw [wordOccurs_trim hfacts.1 hfacts.2] at ho
    have hmem : K.data ∈ SQLValidator.BLOCKED_KEYWORDS.map String.data :=
      List.mem_map_of_mem _ hK
    rw [← denylist_upper] at hmem
    rcases List.mem_map.mp hmem with ⟨kw, hkw, hEq⟩
    refine ⟨kw, hkw, ?_⟩
    rw [hEq]
    exact ho
  · rintro ⟨kw, hkw, ho⟩
    have hmem : upperL kw.data ∈ DENYLIST.map (fun kw => upperL kw.data) :=
      List.mem_map_of_mem _ hkw
    rw [denylist_upper] at hmem
    rcases List.mem_map.mp hmem with ⟨K, hK, hEq⟩
    have hfacts := blocked_word_chars K hK
    refine ⟨K, hK, ?_⟩
    rw [wordOccurs_trim hfacts.1 hfacts.2, hEq]
    exact ho

/-- Pointwise form of claim C3 over one candidate. -/
theorem validate_rejects_char (sql : String) :
    (SQLValidator.validate sql).valid = false ↔ rejectsSpec sql := by
  have hden := blocked_iff_denylist sql
  unfold SQLValidator.validate rejectsSpec
  by_cases h1 : trimL sql.data = []
  · simp [h1]
  · by_cases h2 : ("SELECT".data.isPrefixOf (trimL (upperL sql.data))
        || "WITH".data.isPrefixOf (trimL (upperL sql.data))) = true
    · cases hfind : SQLValidator.BLOCKED_KEYWORDS.find?
          (fun kw => wordOccurs kw.data (trimL (upperL sql.data))) with
      | some K =>
        have hex : ∃ kw ∈ DENYLIST,
            wordOccurs (upperL kw.data) (upperL sql.data) = true :=
          hden.mp ⟨K, List.mem_of_find?_eq_some hfind,
            by simpa using List.find?_some hfind⟩
        simp [h1, h2, hfind, hex]
      | none =>
        have hnex : ¬∃ kw ∈ DENYLIST,
            wordOccurs (upperL kw.data) (upperL sql.data) = true := by
          intro hex
          rcases hden.mpr hex with ⟨K, hK, hp⟩
          have hnone := List.find?_eq_none.mp hfind K hK
          simp [hp] at hnone
        have hAB : "SELECT".data.isPrefixOf (trimL (upperL sql.data)) = true ∨
            "WITH".data.isPrefixOf (trimL (upperL sql.data)) = true := by
          simpa using h2
        by_cases h4 : 1 < (((splitOnChar ';' sql.data).map trimL).filter
            (fun s => !s.isEmpty)).length
        · simp [h1, h2, hfind, hnex, h4]
        · rcases hAB with hA | hA <;> simp [h1, h2, hfind, hnex, h4, hA]
    · have h2f : ("SELECT".data.isPrefixOf (trimL (upperL sql.data))
          || "WITH".data.isPrefixOf (trimL (upperL sql.data))) = false := by
        cases hcase : ("SELECT".data.isPrefixOf (trimL (upperL sql.data))
            || "WITH".data.isPrefixOf (trimL (upperL sql.data)))
        · rfl
        · exact absurd hcase h2
      have hnAB : ¬("SELECT".data.isPrefixOf (trimL (upperL sql.data)) = true ∨
          "WITH".data.isPrefixOf (trimL (upperL sql.data)) = true) := by
        intro hab
        rcases hab with hA | hA <;> simp [hA] at h2f
      constructor
      · intro _
        exact Or.inr (Or.inl hnAB)
      · intro _
        simp [h1, h2f]

/-- Claim C3: the validator rejects a candidate exactly under the four
spec conditions (empty or whitespace-only; not beginning with SELECT or
WITH after trimming and uppercasing; a denylisted keyword as a whole word,
case-insensitively; more than one non-empty semicolon-separated
statement), and a single trailing semicolon does not cause rejection. -/
theorem validateRejectsIff :
    (∀ sql : String, (SQLValidator.validate sql).valid = false ↔ rejectsSpec sql) ∧
    (SQLValidator.validate ("SELECT 1;")).valid = true :=
  ⟨validate_rejects_char, by decide⟩

namespace DemoNL2SQLEngine

/-- The starting value is a lower bound of the running maximum. -/
theorem le_maxFold (ql : List Char) :
    ∀ (l : List (String × String × String)) (b : Nat), b ≤ maxFold ql l b := by
  intro l
  induction l with
  | nil => intro b; exact Nat.le_refl b
  | cons e rest ih =>
    intro b
    have h1 : b ≤ max b (countMatches ql e.1) := Nat.le_max_left _ _
    have h2 : maxFold ql (e :: rest) b
        = maxFold ql rest (max b (countMatches ql e.1)) := by
      simp [maxFold]
    rw [h2]
    exact Nat.le_trans h1 (ih _)

/-- The scoring loop returns the first entry attaining the running maximum
when some entry beats the starting score, and the starting state
otherwise. -/
theorem bestMatch_eq (ql : List Char) :
    ∀ (l : List (String × String × String)) (m : Option (String × String × String))
      (b : Nat),
      bestMatch ql l m b
        = if b < maxFold ql l b
          then (l.find? (fun x => countMatches ql x.1 == maxFold ql l b),
                maxFold ql l b)
          else (m, b) := by
  intro l
  induction l with
  | nil =>
    intro m b
    simp [bestMatch, maxFold]
  | cons e rest ih =>
    intro m b
    have hfold : maxFold ql (e :: rest) b
        = maxFold ql rest (max b (countMatches ql e.1)) := by
      simp [maxFold]
    rw [hfold]
    by_cases hb : b < countMatches ql e.1
    · have hmax : max b (countMatches ql e.1) = countMatches ql e.1 :=
        Nat.max_eq_right (Nat.le_of_lt hb)
      rw [hmax]
      simp only [bestMatch]
      rw [if_pos hb, ih]
      have hsM : countMatches ql e.1 ≤ maxFold ql rest (countMatches ql e.1) :=
        le_maxFold ql rest _
      by_cases hsM2 : countMatches ql e.1 < maxFold ql rest (countMatches ql e.1)
      · have hblt : b < maxFold ql rest (countMatches ql e.1) := Nat.lt_trans hb hsM2
        have hne2 : (countMatches ql e.1
            == maxFold ql rest (countMatches ql e.1)) = false := by
          rw [beq_eq_false_iff_ne]
          exact Nat.ne_of_lt hsM2
        rw [if_pos hsM2, if_pos hblt]
        simp [List.find?, hne2]
      · have heq : maxFold ql rest (countMatches ql e.1) = countMatches ql e.1 :=
          Nat.le_antisymm (Nat.not_lt.mp hsM2) hsM
        rw [if_neg hsM2, heq, if_pos hb]
        simp [List.find?]
    · have hble : countMatches ql e.1 ≤ b := Nat.not_lt.mp hb
      have hmax : max b (countMatches ql e.1) = b := Nat.max_eq_left hble
      rw [hmax]
      simp only [bestMatch]
      rw [if_neg hb, ih]
      by_cases hbM : b < maxFold ql rest b
      · have hne2 : (countMatches ql e.1 == maxFold ql rest b) = false := by
          rw [beq_eq_false_iff_ne]
          exact Nat.ne_of_lt (Nat.lt_of_le_of_lt hble hbM)
        rw [if_pos hbM, if_pos hbM]
        simp [List.find?, hne2]
      · rw [if_neg hbM, if_neg hbM]

/-- When some entry beats the starting score, the first entry attaining
the running maximum exists. -/
theorem maxFold_attained (ql : List Char) :
    ∀ (l : List (String × String × String)) (b : Nat),
      b < maxFold ql l b →
      ∃ e, l.find? (fun x => countMatches ql x.1 == maxFold ql l b) = some e := by
  intro l
  induction l with
  | nil =>
    intro b hb
    simp [maxFold] at hb
  | cons e rest ih =>
    intro b hb
    have hfold : maxFold ql (e :: rest) b
        = maxFold ql rest (max b (countMatches ql e.1)) := by
      simp [maxFold]
    rw [hfold] at hb ⊢
    by_cases hpe : (countMatches ql e.1
        == maxFold ql rest (max b (countMatches ql e.1))) = true
    · exact ⟨e, by simp [List.find?, hpe]⟩
    · have hpe2 : (countMatches ql e.1
          == maxFold ql rest (max b (countMatches ql e.1))) = false := by
        simpa using hpe
      have hne : countMatches ql e.1
          ≠ maxFold ql rest (max b (countMatches ql e.1)) := by
        simpa using hpe
      have hle : max b (countMatches ql e.1)
          ≤ maxFold ql rest (max b (countMatches ql e.1)) := le_maxFold ql rest _
      have hlt : max b (countMatches ql e.1)
          < maxFold ql rest (max b (countMatches ql e.1)) := by
        rcases max_choice b (countMatches ql e.1) with hch | hch
        · exact Nat.lt_of_le_of_lt (Nat.le_of_eq hch) hb
        · refine Nat.lt_of_le_of_ne hle ?_
          nth_rewrite 1 [hch]
          exact hne
      obtain ⟨e2, he2⟩ := ih (max b (countMatches ql e.1)) hlt
      refine ⟨e2, ?_⟩
      have hstep : List.find?
            (fun x => countMatches ql x.1 == maxFold ql rest (max b (countMatches ql e.1)))
            (e :: rest)
          = List.find?
            (fun x => countMatches ql x.1 == maxFold ql rest (max b (countMatches ql e.1)))
            rest := by
        simp [List.find?, hpe2]
      rw [hstep]
      exact he2

/-- Claim C9: for every question the fallback engine answers with the
first-registered library entry attaining the strictly highest keyword
count (the first-registered entry when no entry scores above zero), marks
the record demo_mode = true with attempts = 1, and, being a pure function
of the question, is deterministic. -/
theorem demoSelectionSpec {Row : Type} (maxRows elapsed : Nat)
    (engine : String → EngineReply Row) (question : String) :
    (processQuestion maxRows engine elapsed question).demo_mode = true ∧
    (processQuestion maxRows engine elapsed question).attempts = 1 ∧
    (processQuestion maxRows engine elapsed question).sql
      = (specChoice question).2.1 ∧
    (processQuestion maxRows engine elapsed question).explanation
      = (specChoice question).2.2 := by
  unfold processQuestion specChoice
  have hbm := bestMatch_eq (lowerL question.data) DEMO_QUERIES none 0
  by_cases hM : maxFold (lowerL question.data) DEMO_QUERIES 0 = 0
  · have hnlt : ¬(0 < maxFold (lowerL question.data) DEMO_QUERIES 0) := by
      rw [hM]
      exact Nat.lt_irrefl 0
    rw [if_neg hnlt] at hbm
    have hMs : maxScore (lowerL question.data) = 0 := hM
    simp [hbm, hMs]
  · have hpos : 0 < maxFold (lowerL question.data) DEMO_QUERIES 0 :=
      Nat.pos_of_ne_zero hM
    rw [if_pos hpos] at hbm
    obtain ⟨e0, he0⟩ := maxFold_attained (lowerL question.data) DEMO_QUERIES 0 hpos
    rw [he0] at hbm
    simp [hbm, maxScore, hM, he0]

end DemoNL2SQLEngine

end NL2SQL
